import Mathlib

/-!
# Verification of the DenoGenesis meta-documentation utility module (`mod.ts`)

This file embeds the executable logic of `src/mod.ts` — the compliance
validator `validateCompliance`, the ADR factory `createADR`, and the
placeholder `checkUnixCompliance` — as Lean definitions, and proves the
specified properties about them.

Modelling conventions for the TypeScript/JavaScript source:
* A field of an object that may be absent at runtime is modelled as an
  `Option`.  The parameter of `validateCompliance` is declared as
  `Partial<ComplianceChecklist>`, so each of the three sub-records is an
  `Option`; inside a sub-record the flags are modelled as `Option Bool`
  because the JavaScript truthiness test `!flag` used by the source is
  well-defined (and distinct) on `undefined`, `false`, and `true`.
* The JavaScript falsiness test `!x` on such an optional boolean field is
  `falsy` below: `!undefined` and `!false` are `true`, `!true` is `false`.
* Sequential `violations.push(msg)` calls guarded by `if` are modelled by
  `pushIf`, a conditional cons applied in the source's push order.
* Strings are Lean `String`s; string literals are copied verbatim from the
  source.
-/

/-- `src/mod.ts` lines 16–31, `interface UnixPrinciples`: seven boolean
flags describing Unix-philosophy adherence. -/
structure UnixPrinciples where
  doOneThingWell : Bool
  composable : Bool
  textBased : Bool
  explicitNotMagic : Bool
  minimalOutput : Bool
  securityFirst : Bool
  leverageExisting : Bool
deriving DecidableEq, Repr

/-- The runtime value domain of `Partial<UnixPrinciples>` (the return type
of `checkUnixCompliance`, `src/mod.ts` line 95): each flag may be absent. -/
structure PartialUnixPrinciples where
  doOneThingWell : Option Bool
  composable : Option Bool
  textBased : Option Bool
  explicitNotMagic : Option Bool
  minimalOutput : Option Bool
  securityFirst : Option Bool
  leverageExisting : Option Bool
deriving DecidableEq, Repr

/-- `src/mod.ts` lines 67–73: the `unixPhilosophy` sub-record of
`ComplianceChecklist`.  Flags are `Option Bool`: the runtime object passed
to `validateCompliance` may lack any individual key. -/
structure UnixPhilosophyChecklist where
  singleResponsibility : Option Bool
  composable : Option Bool
  textBasedConfig : Option Bool
  explicitDependencies : Option Bool
  minimalOutput : Option Bool
deriving DecidableEq, Repr

/-- `src/mod.ts` lines 74–80: the `security` sub-record of
`ComplianceChecklist`. -/
structure SecurityChecklist where
  explicitPermissions : Option Bool
  inputValidation : Option Bool
  parameterizedQueries : Option Bool
  multiTenantIsolation : Option Bool
  defenseInDepth : Option Bool
deriving DecidableEq, Repr

/-- `src/mod.ts` lines 81–87: the `architecture` sub-record of
`ComplianceChecklist`. -/
structure ArchitectureChecklist where
  followsHubSpoke : Option Bool
  adrCreated : Option Bool
  testsIncluded : Option Bool
  documentationUpdated : Option Bool
  performanceConsidered : Option Bool
deriving DecidableEq, Repr

/-- The runtime value domain of `Partial<ComplianceChecklist>`
(`src/mod.ts` line 112): each of the three sub-records may be absent. -/
structure ComplianceChecklist where
  unixPhilosophy : Option UnixPhilosophyChecklist
  security : Option SecurityChecklist
  architecture : Option ArchitectureChecklist
deriving DecidableEq, Repr

/-- The return shape of `validateCompliance` (`src/mod.ts` line 113):
`{ valid: boolean; violations: string[] }`. -/
structure ValidationResult where
  valid : Bool
  violations : List String
deriving DecidableEq, Repr

/-- JavaScript falsiness test `!x` on an optional boolean field:
`!undefined = true`, `!false = true`, `!true = false`. -/
def falsy : Option Bool → Bool
  | none => true
  | some b => !b

/-- `if (b) violations.push(m)` followed by the remaining pushes `rest`:
a conditional cons in source push order. -/
def pushIf (b : Bool) (m : String) (rest : List String) : List String :=
  if b then m :: rest else rest

/-- `src/mod.ts` lines 117–124: the violations contributed by the
`unixPhilosophy` block of `validateCompliance` (nothing if the sub-record
is absent, otherwise one fixed message per falsy flag, in declaration
order). -/
def unixViolations : Option UnixPhilosophyChecklist → List String
  | none => []
  | some up =>
    pushIf (falsy up.singleResponsibility) "Module lacks single responsibility"
      (pushIf (falsy up.composable) "Module is not composable"
        (pushIf (falsy up.textBasedConfig) "Configuration is not text-based"
          (pushIf (falsy up.explicitDependencies) "Dependencies are not explicit"
            (pushIf (falsy up.minimalOutput) "Output is not minimal by default" []))))

/-- `src/mod.ts` lines 127–134: the violations contributed by the
`security` block of `validateCompliance`. -/
def securityViolations : Option SecurityChecklist → List String
  | none => []
  | some sec =>
    pushIf (falsy sec.explicitPermissions) "Permissions are not explicit"
      (pushIf (falsy sec.inputValidation) "Input validation is missing"
        (pushIf (falsy sec.parameterizedQueries) "Queries are not parameterized"
          (pushIf (falsy sec.multiTenantIsolation) "Multi-tenant isolation is missing"
            (pushIf (falsy sec.defenseInDepth) "Defense-in-depth not implemented" []))))

/-- `src/mod.ts` lines 137–144: the violations contributed by the
`architecture` block of `validateCompliance`. -/
def architectureViolations : Option ArchitectureChecklist → List String
  | none => []
  | some arch =>
    pushIf (falsy arch.followsHubSpoke) "Doesn't follow hub-and-spoke pattern"
      (pushIf (falsy arch.adrCreated) "ADR not created for architectural change"
        (pushIf (falsy arch.testsIncluded) "Tests not included"
          (pushIf (falsy arch.documentationUpdated) "Documentation not updated"
            (pushIf (falsy arch.performanceConsidered) "Performance not considered" []))))

/-- `src/mod.ts` lines 111–150, `validateCompliance`: collect the violation
messages of the three blocks in source order and report `valid` exactly as
the source does (`violations.length === 0`). -/
def validateCompliance (checklist : ComplianceChecklist) : ValidationResult :=
  let violations : List String :=
    unixViolations checklist.unixPhilosophy ++
      securityViolations checklist.security ++
        architectureViolations checklist.architecture
  { valid := violations.length == 0, violations := violations }

/-- `src/mod.ts` lines 41–42: the ADR status enumeration. -/
inductive ADRStatus where
  | PROPOSED
  | ACCEPTED
  | DEPRECATED
  | SUPERSEDED
deriving DecidableEq, Repr

/-- `src/mod.ts` lines 52–56: the `consequences` field of an ADR. -/
structure Consequences where
  positive : List String
  negative : List String
  mitigation : Option (List String)
deriving DecidableEq, Repr

/-- `src/mod.ts` lines 36–61, `interface ADR`. -/
structure ADR where
  id : String
  title : String
  status : ADRStatus
  context : String
  decision : String
  rationale : String
  alternatives : List String
  consequences : Consequences
  related : List String
  reviewDate : Option String
deriving DecidableEq, Repr

/-- `src/mod.ts` lines 155–173, `createADR`: build a blank PROPOSED ADR
from an id and a title.  The source object literal omits
`consequences.mitigation` and `reviewDate`, so both are `none`. -/
def createADR (id : String) (title : String) : ADR :=
  { id := id
    title := title
    status := ADRStatus.PROPOSED
    context := ""
    decision := ""
    rationale := ""
    alternatives := []
    consequences := { positive := [], negative := [], mitigation := none }
    related := []
    reviewDate := none }

/-- `src/mod.ts` lines 93–106, `checkUnixCompliance`: a placeholder that
ignores its input (`module: Record<string, unknown>`, modelled as an
association list with arbitrary value type) and returns every flag set
`true`. -/
def checkUnixCompliance {α : Type} (module : List (String × α)) :
    PartialUnixPrinciples :=
  { doOneThingWell := some true
    composable := some true
    textBased := some true
    explicitNotMagic := some true
    minimalOutput := some true
    securityFirst := some true
    leverageExisting := some true }

/-- The five `unixPhilosophy` violation messages, in declaration order. -/
def unixMessages : List String :=
  ["Module lacks single responsibility", "Module is not composable",
   "Configuration is not text-based", "Dependencies are not explicit",
   "Output is not minimal by default"]

/-- The five `security` violation messages, in declaration order. -/
def securityMessages : List String :=
  ["Permissions are not explicit", "Input validation is missing",
   "Queries are not parameterized", "Multi-tenant isolation is missing",
   "Defense-in-depth not implemented"]

/-- The five `architecture` violation messages, in declaration order. -/
def architectureMessages : List String :=
  ["Doesn't follow hub-and-spoke pattern", "ADR not created for architectural change",
   "Tests not included", "Documentation not updated", "Performance not considered"]

/-- All fifteen violation messages in the fixed order the source checks
them: unix philosophy, then security, then architecture. -/
def allViolationMessages : List String :=
  unixMessages ++ securityMessages ++ architectureMessages

/-! ## Helper lemmas -/

lemma mem_pushIf {b : Bool} {a m : String} {l : List String} :
    m ∈ pushIf b a l ↔ (b = true ∧ m = a) ∨ m ∈ l := by
  cases b <;> simp [pushIf]

lemma pushIf_sublist {b : Bool} {a : String} {l L : List String}
    (h : l.Sublist L) : (pushIf b a l).Sublist (a :: L) := by
  cases b
  · exact h.cons a
  · exact h.cons₂ a

lemma falsy_iff {x : Option Bool} : falsy x = true ↔ x ≠ some true := by
  rcases x with _ | b
  · simp [falsy]
  · cases b <;> simp [falsy]

lemma violations_def (c : ComplianceChecklist) :
    (validateCompliance c).violations =
      unixViolations c.unixPhilosophy ++
        securityViolations c.security ++
          architectureViolations c.architecture := rfl

lemma valid_def (c : ComplianceChecklist) :
    (validateCompliance c).valid = ((validateCompliance c).violations.length == 0) := rfl

lemma unixViolations_sublist (o : Option UnixPhilosophyChecklist) :
    (unixViolations o).Sublist unixMessages := by
  cases o with
  | none => exact List.nil_sublist _
  | some up =>
    exact pushIf_sublist (pushIf_sublist (pushIf_sublist (pushIf_sublist
      (pushIf_sublist (List.Sublist.refl [])))))

lemma securityViolations_sublist (o : Option SecurityChecklist) :
    (securityViolations o).Sublist securityMessages := by
  cases o with
  | none => exact List.nil_sublist _
  | some sec =>
    exact pushIf_sublist (pushIf_sublist (pushIf_sublist (pushIf_sublist
      (pushIf_sublist (List.Sublist.refl [])))))

lemma architectureViolations_sublist (o : Option ArchitectureChecklist) :
    (architectureViolations o).Sublist architectureMessages := by
  cases o with
  | none => exact List.nil_sublist _
  | some arch =>
    exact pushIf_sublist (pushIf_sublist (pushIf_sublist (pushIf_sublist
      (pushIf_sublist (List.Sublist.refl [])))))

lemma violations_sublist (c : ComplianceChecklist) :
    ((validateCompliance c).violations).Sublist allViolationMessages := by
  rw [violations_def]
  exact ((unixViolations_sublist _).append (securityViolations_sublist _)).append
    (architectureViolations_sublist _)

lemma allViolationMessages_nodup : allViolationMessages.Nodup := by decide

lemma violations_nodup (c : ComplianceChecklist) :
    ((validateCompliance c).violations).Nodup :=
  allViolationMessages_nodup.sublist (violations_sublist c)

lemma valid_iff_empty (c : ComplianceChecklist) :
    (validateCompliance c).valid = true ↔ (validateCompliance c).violations = [] := by
  rw [valid_def]
  simp [List.length_eq_zero]

/-- A unix-philosophy message can only come from the unix-philosophy block. -/
lemma unix_mem_only {m : String} {c : ComplianceChecklist} (hm : m ∈ unixMessages) :
    m ∈ (validateCompliance c).violations ↔ m ∈ unixViolations c.unixPhilosophy := by
  rw [violations_def]
  have hs : m ∉ securityViolations c.security := fun h =>
    ((by decide : ∀ x ∈ unixMessages, x ∉ securityMessages) m hm)
      ((securityViolations_sublist _).subset h)
  have ha : m ∉ architectureViolations c.architecture := fun h =>
    ((by decide : ∀ x ∈ unixMessages, x ∉ architectureMessages) m hm)
      ((architectureViolations_sublist _).subset h)
  simp [List.mem_append, hs, ha]

/-- A security message can only come from the security block. -/
lemma security_mem_only {m : String} {c : ComplianceChecklist} (hm : m ∈ securityMessages) :
    m ∈ (validateCompliance c).violations ↔ m ∈ securityViolations c.security := by
  rw [violations_def]
  have hu : m ∉ unixViolations c.unixPhilosophy := fun h =>
    ((by decide : ∀ x ∈ securityMessages, x ∉ unixMessages) m hm)
      ((unixViolations_sublist _).subset h)
  have ha : m ∉ architectureViolations c.architecture := fun h =>
    ((by decide : ∀ x ∈ securityMessages, x ∉ architectureMessages) m hm)
      ((architectureViolations_sublist _).subset h)
  simp [List.mem_append, hu, ha]

/-- An architecture message can only come from the architecture block. -/
lemma architecture_mem_only {m : String} {c : ComplianceChecklist}
    (hm : m ∈ architectureMessages) :
    m ∈ (validateCompliance c).violations ↔ m ∈ architectureViolations c.architecture := by
  rw [violations_def]
  have hu : m ∉ unixViolations c.unixPhilosophy := fun h =>
    ((by decide : ∀ x ∈ architectureMessages, x ∉ unixMessages) m hm)
      ((unixViolations_sublist _).subset h)
  have hs : m ∉ securityViolations c.security := fun h =>
    ((by decide : ∀ x ∈ architectureMessages, x ∉ securityMessages) m hm)
      ((securityViolations_sublist _).subset h)
  simp [List.mem_append, hu, hs]

/-! ## Per-flag membership characterisations

For each of the fifteen flags: when its sub-record is supplied, the flag's
fixed message is in the violations list iff the flag is not explicitly
`true` (i.e. it is `false` or absent). -/

lemma violations_unix1 {c : ComplianceChecklist} (up : UnixPhilosophyChecklist)
    (h : c.unixPhilosophy = some up) :
    ("Module lacks single responsibility" ∈ (validateCompliance c).violations) ↔
      up.singleResponsibility ≠ some true := by
  rw [ unix_mem_only (by decide), h]
  simp [ unixViolations, mem_pushIf, falsy_iff]

lemma violations_unix2 {c : ComplianceChecklist} (up : UnixPhilosophyChecklist)
    (h : c.unixPhilosophy = some up) :
    ("Module is not composable" ∈ (validateCompliance c).violations) ↔
      up.composable ≠ some true := by
  rw [ unix_mem_only (by decide), h]
  simp [ unixViolations, mem_pushIf, falsy_iff]

lemma violations_unix3 {c : ComplianceChecklist} (up : UnixPhilosophyChecklist)
    (h : c.unixPhilosophy = some up) :
    ("Configuration is not text-based" ∈ (validateCompliance c).violations) ↔
      up.textBasedConfig ≠ some true := by
  rw [ unix_mem_only (by decide), h]
  simp [ unixViolations, mem_pushIf, falsy_iff]

lemma violations_unix4 {c : ComplianceChecklist} (up : UnixPhilosophyChecklist)
    (h : c.unixPhilosophy = some up) :
    ("Dependencies are not explicit" ∈ (validateCompliance c).violations) ↔
      up.explicitDependencies ≠ some true := by
  rw [ unix_mem_only (by decide), h]
  simp [ unixViolations, mem_pushIf, falsy_iff]

lemma violations_unix5 {c : ComplianceChecklist} (up : UnixPhilosophyChecklist)
    (h : c.unixPhilosophy = some up) :
    ("Output is not minimal by default" ∈ (validateCompliance c).violations) ↔
      up.minimalOutput ≠ some true := by
  rw [ unix_mem_only (by decide), h]
  simp [ unixViolations, mem_pushIf, falsy_iff]

lemma violations_security1 {c : ComplianceChecklist} (sec : SecurityChecklist)
    (h : c.security = some sec) :
    ("Permissions are not explicit" ∈ (validateCompliance c).violations) ↔
      sec.explicitPermissions ≠ some true := by
  rw [ security_mem_only (by decide), h]
  simp [ securityViolations, mem_pushIf, falsy_iff]

lemma violations_security2 {c : ComplianceChecklist} (sec : SecurityChecklist)
    (h : c.security = some sec) :
    ("Input validation is missing" ∈ (validateCompliance c).violations) ↔
      sec.inputValidation ≠ some true := by
  rw [ security_mem_only (by decide), h]
  simp [ securityViolations, mem_pushIf, falsy_iff]

lemma violations_security3 {c : ComplianceChecklist} (sec : SecurityChecklist)
    (h : c.security = some sec) :
    ("Queries are not parameterized" ∈ (validateCompliance c).violations) ↔
      sec.parameterizedQueries ≠ some true := by
  rw [ security_mem_only (by decide), h]
  simp [ securityViolations, mem_pushIf, falsy_iff]

lemma violations_security4 {c : ComplianceChecklist} (sec : SecurityChecklist)
    (h : c.security = some sec) :
    ("Multi-tenant isolation is missing" ∈ (validateCompliance c).violations) ↔
      sec.multiTenantIsolation ≠ some true := by
  rw [ security_mem_only (by decide), h]
  simp [ securityViolations, mem_pushIf, falsy_iff]

lemma violations_security5 {c : ComplianceChecklist} (sec : SecurityChecklist)
    (h : c.security = some sec) :
    ("Defense-in-depth not implemented" ∈ (validateCompliance c).violations) ↔
      sec.defenseInDepth ≠ some true := by
  rw [ security_mem_only (by decide), h]
  simp [ securityViolations, mem_pushIf, falsy_iff]

lemma violations_architecture1 {c : ComplianceChecklist} (arch : ArchitectureChecklist)
    (h : c.architecture = some arch) :
    ("Doesn't follow hub-and-spoke pattern" ∈ (validateCompliance c).violations) ↔
      arch.followsHubSpoke ≠ some true := by
  rw [ architecture_mem_only (by decide), h]
  simp [ architectureViolations, mem_pushIf, falsy_iff]

lemma violations_architecture2 {c : ComplianceChecklist} (arch : ArchitectureChecklist)
    (h : c.architecture = some arch) :
    ("ADR not created for architectural change" ∈ (validateCompliance c).violations) ↔
      arch.adrCreated ≠ some true := by
  rw [ architecture_mem_only (by decide), h]
  simp [ architectureViolations, mem_pushIf, falsy_iff]

lemma violations_architecture3 {c : ComplianceChecklist} (arch : ArchitectureChecklist)
    (h : c.architecture = some arch) :
    ("Tests not included" ∈ (validateCompliance c).violations) ↔
      arch.testsIncluded ≠ some true := by
  rw [ architecture_mem_only (by decide), h]
  simp [ architectureViolations, mem_pushIf, falsy_iff]

lemma violations_architecture4 {c : ComplianceChecklist} (arch : ArchitectureChecklist)
    (h : c.architecture = some arch) :
    ("Documentation not updated" ∈ (validateCompliance c).violations) ↔
      arch.documentationUpdated ≠ some true := by
  rw [ architecture_mem_only (by decide), h]
  simp [ architectureViolations, mem_pushIf, falsy_iff]

lemma violations_architecture5 {c : ComplianceChecklist} (arch : ArchitectureChecklist)
    (h : c.architecture = some arch) :
    ("Performance not considered" ∈ (validateCompliance c).violations) ↔
      arch.performanceConsidered ≠ some true := by
  rw [ architecture_mem_only (by decide), h]
  simp [ architectureViolations, mem_pushIf, falsy_iff]

/-! ## Claim theorems -/

/-- C1, counterexample: in the checklist below the security sub-record is
supplied with `explicitPermissions` absent (`none`) and every other flag
explicitly `true`, so no flag is explicitly set to `false`; yet
`validateCompliance` reports the violation of the absent flag.  The claim
that an absent flag "never produces a violation" is therefore false. -/
theorem validateCompliance_absent_flag_cex :
    (⟨none, some true, some true, some true, some true⟩ :
        SecurityChecklist).explicitPermissions ≠ some false ∧
    validateCompliance
        ⟨none, some ⟨none, some true, some true, some true, some true⟩, none⟩ =
      ⟨false, ["Permissions are not explicit"]⟩ :=
  ⟨by decide, rfl⟩

/-- C1 (amended): a sub-record that is entirely absent contributes zero
violations, but inside a supplied sub-record a flag contributes its fixed
violation message exactly when it is not explicitly `true`: an absent flag
is treated like an explicitly-false one, not as "not evaluated". -/
theorem validateCompliance_absence_and_flags (c : ComplianceChecklist) :
    (c.unixPhilosophy = none →
      ∀ m ∈ unixMessages, m ∉ (validateCompliance c).violations) ∧
    (c.security = none →
      ∀ m ∈ securityMessages, m ∉ (validateCompliance c).violations) ∧
    (c.architecture = none →
      ∀ m ∈ architectureMessages, m ∉ (validateCompliance c).violations) ∧
    (∀ up, c.unixPhilosophy = some up →
      (("Module lacks single responsibility" ∈ (validateCompliance c).violations) ↔
        up.singleResponsibility ≠ some true) ∧
      (("Module is not composable" ∈ (validateCompliance c).violations) ↔
        up.composable ≠ some true) ∧
      (("Configuration is not text-based" ∈ (validateCompliance c).violations) ↔
        up.textBasedConfig ≠ some true) ∧
      (("Dependencies are not explicit" ∈ (validateCompliance c).violations) ↔
        up.explicitDependencies ≠ some true) ∧
      (("Output is not minimal by default" ∈ (validateCompliance c).violations) ↔
        up.minimalOutput ≠ some true)) ∧
    (∀ sec, c.security = some sec →
      (("Permissions are not explicit" ∈ (validateCompliance c).violations) ↔
        sec.explicitPermissions ≠ some true) ∧
      (("Input validation is missing" ∈ (validateCompliance c).violations) ↔
        sec.inputValidation ≠ some true) ∧
      (("Queries are not parameterized" ∈ (validateCompliance c).violations) ↔
        sec.parameterizedQueries ≠ some true) ∧
      (("Multi-tenant isolation is missing" ∈ (validateCompliance c).violations) ↔
        sec.multiTenantIsolation ≠ some true) ∧
      (("Defense-in-depth not implemented" ∈ (validateCompliance c).violations) ↔
        sec.defenseInDepth ≠ some true)) ∧
    (∀ arch, c.architecture = some arch →
      (("Doesn't follow hub-and-spoke pattern" ∈ (validateCompliance c).violations) ↔
        arch.followsHubSpoke ≠ some true) ∧
      (("ADR not created for architectural change" ∈ (validateCompliance c).violations) ↔
        arch.adrCreated ≠ some true) ∧
      (("Tests not included" ∈ (validateCompliance c).violations) ↔
        arch.testsIncluded ≠ some true) ∧
      (("Documentation not updated" ∈ (validateCompliance c).violations) ↔
        arch.documentationUpdated ≠ some true) ∧
      (("Performance not considered" ∈ (validateCompliance c).violations) ↔
        arch.performanceConsidered ≠ some true)) := by
  refine ⟨?_, ?_, ?_, ?_, ?_, ?_⟩
  · intro h m hm
    rw [unix_mem_only hm, h]
    simp [unixViolations]
  · intro h m hm
    rw [security_mem_only hm, h]
    simp [securityViolations]
  · intro h m hm
    rw [architecture_mem_only hm, h]
    simp [architectureViolations]
  · intro up h
    exact ⟨violations_unix1 up h, violations_unix2 up h, violations_unix3 up h,
      violations_unix4 up h, violations_unix5 up h⟩
  · intro sec h
    exact ⟨violations_security1 sec h, violations_security2 sec h,
      violations_security3 sec h, violations_security4 sec h, violations_security5 sec h⟩
  · intro arch h
    exact ⟨violations_architecture1 arch h, violations_architecture2 arch h,
      violations_architecture3 arch h, violations_architecture4 arch h,
      violations_architecture5 arch h⟩

theorem validateCompliance_absence_and_flags_witness :
    "Permissions are not explicit" ∈
      (validateCompliance
        ⟨none, some ⟨none, some true, some true, some true, some true⟩, none⟩).violations ∧
    "Tests not included" ∉
      (validateCompliance
        ⟨none, some ⟨none, some true, some true, some true, some true⟩, none⟩).violations :=
  ⟨((validateCompliance_absence_and_flags _).2.2.2.2.1 _ rfl).1.mpr (by decide),
   (validateCompliance_absence_and_flags _).2.2.1 rfl _ (by decide)⟩

/-- C2: if every supplied sub-record has all of its named flags explicitly
`true`, `validateCompliance` returns `valid = true` and no violations. -/
theorem validateCompliance_all_true (c : ComplianceChecklist)
    (hu : c.unixPhilosophy = none ∨
      c.unixPhilosophy = some ⟨some true, some true, some true, some true, some true⟩)
    (hs : c.security = none ∨
      c.security = some ⟨some true, some true, some true, some true, some true⟩)
    (ha : c.architecture = none ∨
      c.architecture = some ⟨some true, some true, some true, some true, some true⟩) :
    (validateCompliance c).valid = true ∧ (validateCompliance c).violations = [] := by
  have h1 : unixViolations c.unixPhilosophy = [] := by
    rcases hu with h | h <;> rw [h] <;> rfl
  have h2 : securityViolations c.security = [] := by
    rcases hs with h | h <;> rw [h] <;> rfl
  have h3 : architectureViolations c.architecture = [] := by
    rcases ha with h | h <;> rw [h] <;> rfl
  have hv : (validateCompliance c).violations = [] := by
    rw [violations_def, h1, h2, h3]
    rfl
  exact ⟨(valid_iff_empty c).mpr hv, hv⟩

theorem validateCompliance_all_true_witness :
    (validateCompliance
      ⟨some ⟨some true, some true, some true, some true, some true⟩, none,
        some ⟨some true, some true, some true, some true, some true⟩⟩).valid = true ∧
    (validateCompliance
      ⟨some ⟨some true, some true, some true, some true, some true⟩, none,
        some ⟨some true, some true, some true, some true, some true⟩⟩).violations = [] :=
  validateCompliance_all_true _ (Or.inr rfl) (Or.inl rfl) (Or.inr rfl)

/-- C3: any message present in the violations list forces `valid = false`
and appears exactly once; every explicitly-false flag of a supplied
sub-record puts its fixed message in the list; and the spec's concrete
security example evaluates exactly as stated. -/
theorem validateCompliance_false_flag (c : ComplianceChecklist) :
    (∀ m, m ∈ (validateCompliance c).violations →
      (validateCompliance c).valid = false ∧
        (validateCompliance c).violations.count m = 1) ∧
    (∀ up, c.unixPhilosophy = some up →
      (up.singleResponsibility = some false →
        "Module lacks single responsibility" ∈ (validateCompliance c).violations) ∧
      (up.composable = some false →
        "Module is not composable" ∈ (validateCompliance c).violations) ∧
      (up.textBasedConfig = some false →
        "Configuration is not text-based" ∈ (validateCompliance c).violations) ∧
      (up.explicitDependencies = some false →
        "Dependencies are not explicit" ∈ (validateCompliance c).violations) ∧
      (up.minimalOutput = some false →
        "Output is not minimal by default" ∈ (validateCompliance c).violations)) ∧
    (∀ sec, c.security = some sec →
      (sec.explicitPermissions = some false →
        "Permissions are not explicit" ∈ (validateCompliance c).violations) ∧
      (sec.inputValidation = some false →
        "Input validation is missing" ∈ (validateCompliance c).violations) ∧
      (sec.parameterizedQueries = some false →
        "Queries are not parameterized" ∈ (validateCompliance c).violations) ∧
      (sec.multiTenantIsolation = some false →
        "Multi-tenant isolation is missing" ∈ (validateCompliance c).violations) ∧
      (sec.defenseInDepth = some false →
        "Defense-in-depth not implemented" ∈ (validateCompliance c).violations)) ∧
    (∀ arch, c.architecture = some arch →
      (arch.followsHubSpoke = some false →
        "Doesn't follow hub-and-spoke pattern" ∈ (validateCompliance c).violations) ∧
      (arch.adrCreated = some false →
        "ADR not created for architectural change" ∈ (validateCompliance c).violations) ∧
      (arch.testsIncluded = some false →
        "Tests not included" ∈ (validateCompliance c).violations) ∧
      (arch.documentationUpdated = some false →
        "Documentation not updated" ∈ (validateCompliance c).violations) ∧
      (arch.performanceConsidered = some false →
        "Performance not considered" ∈ (validateCompliance c).violations)) ∧
    validateCompliance
        ⟨none, some ⟨some false, some true, some true, some true, some true⟩, none⟩ =
      ⟨false, ["Permissions are not explicit"]⟩ := by
  refine ⟨?_, ?_, ?_, ?_, rfl⟩
  · intro m hm
    refine ⟨?_, List.count_eq_one_of_mem (violations_nodup c) hm⟩
    cases hb : (validateCompliance c).valid
    · rfl
    · rw [(valid_iff_empty c).mp hb] at hm
      exact absurd hm (List.not_mem_nil m)
  · intro up h
    exact ⟨fun hf => (violations_unix1 up h).mpr (by rw [hf]; decide),
      fun hf => (violations_unix2 up h).mpr (by rw [hf]; decide),
      fun hf => (violations_unix3 up h).mpr (by rw [hf]; decide),
      fun hf => (violations_unix4 up h).mpr (by rw [hf]; decide),
      fun hf => (violations_unix5 up h).mpr (by rw [hf]; decide)⟩
  · intro sec h
    exact ⟨fun hf => (violations_security1 sec h).mpr (by rw [hf]; decide),
      fun hf => (violations_security2 sec h).mpr (by rw [hf]; decide),
      fun hf => (violations_security3 sec h).mpr (by rw [hf]; decide),
      fun hf => (violations_security4 sec h).mpr (by rw [hf]; decide),
      fun hf => (violations_security5 sec h).mpr (by rw [hf]; decide)⟩
  · intro arch h
    exact ⟨fun hf => (violations_architecture1 arch h).mpr (by rw [hf]; decide),
      fun hf => (violations_architecture2 arch h).mpr (by rw [hf]; decide),
      fun hf => (violations_architecture3 arch h).mpr (by rw [hf]; decide),
      fun hf => (violations_architecture4 arch h).mpr (by rw [hf]; decide),
      fun hf => (violations_architecture5 arch h).mpr (by rw [hf]; decide)⟩

theorem validateCompliance_false_flag_witness :
    (validateCompliance
      ⟨none, some ⟨some false, some true, some true, some true, some true⟩, none⟩).valid = false ∧
    (validateCompliance
      ⟨none, some ⟨some false, some true, some true, some true, some true⟩, none⟩).violations.count
        "Permissions are not explicit" = 1 :=
  (validateCompliance_false_flag _).1 _ (by decide)

/-- C4: the violations sequence is always a subsequence of the fixed
fifteen-message list (unix-philosophy messages, then security, then
architecture, each in declaration order), and equal checklists give
identical results. -/
theorem validateCompliance_order (c c' : ComplianceChecklist) (h : c = c') :
    ((validateCompliance c).violations).Sublist allViolationMessages ∧
      validateCompliance c = validateCompliance c' :=
  ⟨violations_sublist c, by rw [h]⟩

theorem validateCompliance_order_witness :
    ((validateCompliance ⟨none, none, some ⟨none, none, none, none, none⟩⟩).violations).Sublist
        allViolationMessages ∧
      validateCompliance ⟨none, none, some ⟨none, none, none, none, none⟩⟩ =
        validateCompliance ⟨none, none, some ⟨none, none, none, none, none⟩⟩ :=
  validateCompliance_order _ _ rfl

/-- C5: `valid` is `true` exactly when the violations sequence is empty. -/
theorem validateCompliance_valid_iff (c : ComplianceChecklist) :
    (validateCompliance c).valid = true ↔ (validateCompliance c).violations = [] :=
  valid_iff_empty c

/-- C6: the empty checklist validates to `{valid: true, violations: []}`. -/
theorem validateCompliance_empty :
    validateCompliance ⟨none, none, none⟩ = ⟨true, []⟩ := rfl

/-- C7: `createADR id title` carries exactly the given id and title, status
`PROPOSED`, empty text fields, empty sequences, and no review date (and no
mitigation list, which the source object literal omits as well). -/
theorem createADR_fields (id title : String) :
    (createADR id title).id = id ∧
    (createADR id title).title = title ∧
    (createADR id title).status = ADRStatus.PROPOSED ∧
    (createADR id title).context = "" ∧
    (createADR id title).decision = "" ∧
    (createADR id title).rationale = "" ∧
    (createADR id title).alternatives = [] ∧
    (createADR id title).consequences.positive = [] ∧
    (createADR id title).consequences.negative = [] ∧
    (createADR id title).consequences.mitigation = none ∧
    (createADR id title).related = [] ∧
    (createADR id title).reviewDate = none :=
  ⟨rfl, rfl, rfl, rfl, rfl, rfl, rfl, rfl, rfl, rfl, rfl, rfl⟩

/-- C8: `createADR` is deterministic — identical arguments yield equal
(hence deep-equal, by `DecidableEq ADR`) results; no hidden state enters. -/
theorem createADR_deterministic (id₁ title₁ id₂ title₂ : String)
    (hid : id₁ = id₂) (htitle : title₁ = title₂) :
    createADR id₁ title₁ = createADR id₂ title₂ := by
  rw [hid, htitle]

theorem createADR_deterministic_witness :
    createADR "ADR-042" "Use event sourcing" = createADR "ADR-042" "Use event sourcing" :=
  createADR_deterministic "ADR-042" "Use event sourcing" "ADR-042" "Use event sourcing" rfl rfl

/-- C9: totality — on every well-typed input both operations produce a
result (both are total Lean functions; no error, exception or partiality
appears anywhere in the embedding). -/
theorem operations_total (c : ComplianceChecklist) (id title : String) :
    (∃ r : ValidationResult, validateCompliance c = r) ∧
      (∃ a : ADR, createADR id title = a) :=
  ⟨⟨validateCompliance c, rfl⟩, ⟨createADR id title, rfl⟩⟩

/-- C10: `checkUnixCompliance` is a constant function — every input module
record (over any value type) yields the same record with all seven
`UnixPrinciples` flags set `true`. -/
theorem checkUnixCompliance_constant {α β : Type}
    (m₁ : List (String × α)) (m₂ : List (String × β)) :
    checkUnixCompliance m₁ =
        ⟨some true, some true, some true, some true, some true, some true, some true⟩ ∧
      checkUnixCompliance m₁ = checkUnixCompliance m₂ :=
  ⟨rfl, rfl⟩
